import Mathlib

/-!
Verification of the contact-scraper pipeline (`src/main.py`).

The Python source is shallowly embedded below.  External capabilities
(HTTP transport, HTML parsing, `urllib.parse.urljoin`) are modelled as
parameters, following the spec's own capability boundaries:

* a fetched-and-parsed page is a `Page` (visible text plus the anchors
  found by `soup.find_all("a", href=True)`, in document order);
* a fetch result is `Option (Page × String)` — `none` covers both a
  fetch failure and a falsy (empty) body, which Python's `if not html:`
  treats identically;
* `urljoin` is an explicit function argument.

Python regexes `EMAIL_REGEX` and `PHONE_REGEX` are implemented directly
(leftmost scan with backtracking, as in CPython `re.findall`), with `\w`
restricted to its ASCII fragment.  Python `set`s of strings are embedded
as `Finset String`.
-/

namespace ContactScraper

/-- `pat` occurs as a contiguous sublist of `l`. -/
def listHasInfix (pat : List Char) : List Char → Bool
  | [] => pat.isEmpty
  | c :: cs => pat.isPrefixOf (c :: cs) || listHasInfix pat cs

/-- Python `in` on strings: `pat` occurs as a substring of `s`. -/
def strContains (s pat : String) : Bool := listHasInfix pat.data s.data

/-- Python `str.startswith`. -/
def pyStartsWith (s pre : String) : Bool := pre.data.isPrefixOf s.data

/-- Python `str.lower` (ASCII fragment). -/
def pyLower (s : String) : String := String.mk (s.data.map Char.toLower)

/-- the ASCII fragment of Python regex `\w`. -/
def isWordChar (c : Char) : Bool := c.isAlphanum || c = '_'

/-- the character class `[\w\.-]` of `EMAIL_REGEX`. -/
def isEmailChar (c : Char) : Bool := isWordChar c || c = '.' || c = '-'

/-- the ASCII fragment of Python regex `\s`. -/
def isPySpace (c : Char) : Bool :=
  c = ' ' || c = '\t' || c = '\n' || c = '\r' || c = '\x0b' || c = '\x0c'

/-- Python `str.isdigit` (ASCII fragment): non-empty and all digits. -/
def pyIsDigit (s : String) : Bool := s.length != 0 && s.data.all Char.isDigit

/-- Python `str.strip()` (ASCII whitespace fragment): drop whitespace
from both ends. -/
def pyStrip (s : String) : String :=
  String.mk (((s.data.dropWhile isPySpace).reverse.dropWhile isPySpace).reverse)

/-- `match.split("@")[-1]`: the substring after the last `@`
(the whole string when there is no `@`). -/
def domainOf (s : String) : String :=
  String.mk ((s.data.reverse.takeWhile (fun c => c != '@')).reverse)

/-! ### EMAIL_REGEX = `[\w\.-]+@[\w\.-]+\.[a-zA-Z]{2,}`

A match at a position is: the maximal `[\w\.-]` run, a literal `@`, then
inside the maximal `[\w\.-]` run `R` after the `@` the greedy-backtracking
tail `[\w\.-]+\.[a-zA-Z]{2,}`: the largest `k ≥ 1` with `R[k] = '.'`
followed by at least two ASCII letters, taking the maximal letter run. -/

/-- One backtracking attempt of the email tail: `k` characters for
`[\w\.-]+`, a literal dot at position `k`, then a greedy run of at least
two ASCII letters. -/
def emailTailAt (R : List Char) (k : Nat) : Option (List Char) :=
  if k = 0 then none else
  match R.drop k with
  | '.' :: rest =>
    let letters := rest.takeWhile (fun c => c.isAlpha)
    if 2 ≤ letters.length then some (R.take k ++ '.' :: letters) else none
  | _ => none

/-- Backtracking loop: try the longest `[\w\.-]+` part first. -/
def emailTailAux (R : List Char) : Nat → Option (List Char)
  | 0 => none
  | Nat.succ k =>
    match emailTailAt R (Nat.succ k) with
    | some m => some m
    | none => emailTailAux R k

def emailTail (R : List Char) : Option (List Char) := emailTailAux R R.length

/-- Leftmost scan of `EMAIL_REGEX.findall`: on failure advance one
character, on success continue after the match.  The fuel equals the
initial character count; every step consumes at least one character, so
the fuel never runs out. -/
def emailScanAux : Nat → List Char → List String
  | 0, _ => []
  | _, [] => []
  | Nat.succ fuel, c :: cs =>
    if isEmailChar c then
      match (c :: cs).dropWhile isEmailChar with
      | '@' :: rest2 =>
        let run1 := (c :: cs).takeWhile isEmailChar
        let R := rest2.takeWhile isEmailChar
        let rest3 := rest2.dropWhile isEmailChar
        match emailTail R with
        | some m =>
            String.mk (run1 ++ '@' :: m) :: emailScanAux fuel (R.drop m.length ++ rest3)
        | none => emailScanAux fuel cs
      | _ => emailScanAux fuel cs
    else emailScanAux fuel cs

/-- `EMAIL_REGEX.findall(text)` (the pattern has no groups, so `findall`
returns whole matches). -/
def EMAIL_findall (s : String) : List String := emailScanAux s.data.length s.data

/-! ### PHONE_REGEX = `(?:\+91[-\s]?|\b)([6-9]\d{9})\b`

`findall` returns the capture group: a digit `6`-`9` followed by exactly
nine digits, ending at a word boundary, preceded either by `+91` with an
optional single dash/space or by a word boundary. -/

/-- The capture group `([6-9]\d{9})` followed by `\b`: returns the ten
group characters and the rest of the input after them. -/
def phoneGroup (l : List Char) : Option (List Char × List Char) :=
  match l with
  | c :: cs =>
    if '6' ≤ c && c ≤ '9' then
      let nine := cs.take 9
      if nine.length = 9 && nine.all Char.isDigit &&
          (match cs.drop 9 with
           | [] => true
           | d :: _ => !isWordChar d) then
        some (c :: nine, cs.drop 9)
      else none
    else none
  | [] => none

/-- One match attempt of `PHONE_REGEX` at a position; `prev` is the
character before the position (`none` at the start of the text).
Alternative 1 is the literal `+91` with an optional greedy `[-\s]`;
alternative 2 is a word boundary. -/
def phoneTryAt (prev : Option Char) (l : List Char) : Option (List Char × List Char) :=
  match l with
  | '+' :: '9' :: '1' :: rest =>
    match rest with
    | d :: rest2 =>
      if d = '-' || isPySpace d then
        match phoneGroup rest2 with
        | some r => some r
        | none => phoneGroup rest
      else phoneGroup rest
    | [] => none
  | _ =>
    if (match prev with
        | none => true
        | some pc => !isWordChar pc) then
      phoneGroup l
    else none

/-- Leftmost scan of `PHONE_REGEX.findall`, tracking the previous
character for `\b`.  The fuel equals the initial character count; every
step consumes at least one character. -/
def phoneScanAux : Nat → Option Char → List Char → List String
  | 0, _, _ => []
  | _, _, [] => []
  | Nat.succ fuel, prev, c :: cs =>
    match phoneTryAt prev (c :: cs) with
    | some (g, rest) => String.mk g :: phoneScanAux fuel (some (g.getLastD c)) rest
    | none => phoneScanAux fuel (some c) cs

/-- `PHONE_REGEX.findall(text)`. -/
def PHONE_findall (s : String) : List String := phoneScanAux s.data.length none s.data

/-! ### Data model -/

/-- `JUNK_EMAIL_DOMAINS` (main.py line 29). -/
def JUNK_EMAIL_DOMAINS : Finset String :=
  {"sentry.wixpress.com", "sentry.io", "sentry-next.wixpress.com"}

/-- An anchor element with an `href` attribute, as returned by
`soup.find_all("a", href=True)`: its `href` and its visible text. -/
structure Anchor where
  href : String
  text : String
deriving DecidableEq

/-- A parsed page: `soup.get_text()` and the anchors in document order. -/
structure Page where
  text : String
  links : List Anchor
deriving DecidableEq

/-! ### Pattern extractor (`extract_contacts_from_html`, lines 39-69) -/

/-- `href[7:].split("?")[0]` of a `mailto:` href: the characters after
the prefix up to the first `?`. -/
def mailtoEmail (href : String) : String :=
  String.mk ((href.data.drop 7).takeWhile (fun c => c != '?'))

/-- `href[4:].strip()` of a `tel:` href. -/
def telPhone (href : String) : String := pyStrip (String.mk (href.data.drop 4))

/-- The body of the link loop (lines 54-64): `mailto:` hrefs contribute
an email when the domain is not junk, `tel:` hrefs contribute a phone
when the target is exactly ten digits. -/
def linkStep (acc : Finset String × Finset String) (a : Anchor) :
    Finset String × Finset String :=
  if pyStartsWith a.href "mailto:" then
    if domainOf (mailtoEmail a.href) ∉ JUNK_EMAIL_DOMAINS then
      (insert (pyStrip (mailtoEmail a.href)) acc.1, acc.2)
    else acc
  else if pyStartsWith a.href "tel:" then
    if pyIsDigit (telPhone a.href) && (telPhone a.href).length == 10 then
      (acc.1, insert ("+91" ++ telPhone a.href) acc.2)
    else acc
  else acc

/-- `extract_contacts_from_html(html)` (lines 39-69): `none` stands for
falsy html (`if not html: return [], []`).  The Python function returns
`list(emails), list(phones)` of the accumulated sets; the embedding
returns the sets themselves. -/
def extract_contacts_from_html (html : Option Page) : Finset String × Finset String :=
  match html with
  | none => (∅, ∅)
  | some p =>
    let textEmails :=
      ((EMAIL_findall p.text).filter (fun m => domainOf m ∉ JUNK_EMAIL_DOMAINS)).map
        (fun m => pyStrip m)
    let acc := p.links.foldl linkStep (textEmails.toFinset, ∅)
    (acc.1, acc.2 ∪ ((PHONE_findall p.text).map (fun m => "+91" ++ pyStrip m)).toFinset)

/-! ### Contact-page locator (`find_contact_page`, lines 94-104) -/

/-- `find_contact_page(html, base_url)`: the first anchor whose
lowercased href contains `"contact"` wins; its original href is joined
onto `base_url` by the external `urljoin` capability; otherwise
`base_url` is returned unchanged. -/
def find_contact_page (urljoin : String → String → String)
    (html : Option Page) (base_url : String) : String :=
  match html with
  | none => base_url
  | some p =>
    match p.links.find? (fun a => strContains (pyLower a.href) "contact") with
    | some a => urljoin base_url a.href
    | none => base_url

/-! ### Site scraper (`scrape_site`, lines 107-150) -/

/-- The external capabilities `scrape_site` consumes: the Playwright
fetcher, the aiohttp fetcher (each yielding parsed content and the
post-redirect final URL, or `none` on failure/falsy body), and
`urllib.parse.urljoin`. -/
structure Env where
  fetchPW : String → Option (Page × String)
  fetchA : String → Option (Page × String)
  urljoin : String → String → String

/-- Line 117-118: prepend `http://` when the URL does not start with
`http`. -/
def normUrl (u : String) : String :=
  if pyStartsWith u "http" then u else "http://" ++ u

/-- The fetch pattern of lines 121-124 and 136-138: try Playwright,
fall back to aiohttp on falsy content. -/
def fetch_with_fallback (env : Env) (u : String) : Option (Page × String) :=
  match env.fetchPW u with
  | some r => some r
  | none => env.fetchA u

/-- The per-URL `Result` dict (lines 108-114): url, emails, phones,
contact_page, error. -/
structure ScrapeResult where
  url : String
  emails : Finset String
  phones : Finset String
  contact_page : Option String
  error : Option String
deriving DecidableEq

/-- `scrape_site(session, url)` (lines 107-150).  The `result["url"]`
field keeps the URL as passed; the fetches use the scheme-normalized
URL.  The Python `except` clause catches faults of the external
libraries, which the pure embedding does not raise. -/
def scrape_site (env : Env) (url0 : String) : ScrapeResult :=
  let url := normUrl url0
  match fetch_with_fallback env url with
  | none => ⟨url0, ∅, ∅, none, some "Site not reachable"⟩
  | some (html, final_url) =>
    let contact_page := find_contact_page env.urljoin (some html) final_url
    let ep1 := extract_contacts_from_html (some html)
    if contact_page ≠ final_url then
      let contact_html := (fetch_with_fallback env contact_page).map Prod.fst
      let ep2 := extract_contacts_from_html contact_html
      ⟨url0, ep1.1 ∪ ep2.1, ep1.2 ∪ ep2.2, some contact_page, none⟩
    else
      ⟨url0, ep1.1, ep1.2, some contact_page, none⟩

/-! ### Bulk orchestrator (`extract_contacts_bulk`, lines 155-182) -/

/-- The sequence of Site Scraper dispatches issued by
`extract_contacts_bulk` (line 167): one task per input URL whose
stripped form is truthy, in input order, each receiving the stripped
URL.  The function body contains no further `scrape_site` calls — lines
170-180 only write the CSV. -/
def bulk_dispatches (urls : List String) : List String :=
  (urls.filter (fun u => pyStrip u != "")).map (fun u => pyStrip u)

/-- `extract_contacts_bulk(urls)` (lines 155-182): the ordered result
list gathered by `asyncio.gather` (which preserves task order).  The
CSV writer then emits exactly one row per result, in order; file naming
and I/O are external side effects outside the embedding. -/
def extract_contacts_bulk (env : Env) (urls : List String) : List ScrapeResult :=
  (urls.filter (fun u => pyStrip u != "")).map (fun u => scrape_site env (pyStrip u))

/-- The contact-related keywords enumerated by the spec (§4.2). -/
def contactKeywords : List String := ["contact", "contact-us", "get-in-touch", "support"]

/-- An environment in which every fetch fails. -/
def envFail : Env := ⟨fun _ => none, fun _ => none, fun _ h => h⟩

/-- An environment in which only the https variant of example.com is
fetchable (via aiohttp); Playwright always fails. -/
def envHttps : Env :=
  ⟨fun _ => none,
    fun u => if u = "https://example.com" then some (⟨"", []⟩, u) else none,
    fun _ h => h⟩

/-- A homepage used by the C8 witness: one email in the text and a
contact link. -/
def pageW8 : Page := ⟨"w8@ex.co", [⟨"/contact", ""⟩]⟩

/-- An environment for the C8 witness: the homepage fetch succeeds via
Playwright, every other fetch (in particular of the located contact
page) fails. -/
def envW8 : Env :=
  ⟨fun u => if u = "http://h.com" then some (pageW8, "http://h.com") else none,
    fun _ => none, fun b h => b ++ h⟩

/-- A homepage used by the C9 witness: one email in the text and a
single non-contact link. -/
def pageW9 : Page := ⟨"w9@ex.co", [⟨"/about", "About"⟩]⟩

/-- An environment for the C9 witness: only the homepage is fetchable. -/
def envW9 : Env :=
  ⟨fun u => if u = "http://n.com" then some (pageW9, "http://n.com") else none,
    fun _ => none, fun b h => b ++ h⟩

/-! ### Helper lemmas -/

lemma scrape_site_url (env : Env) (u : String) : (scrape_site env u).url = u := by
  rcases h : fetch_with_fallback env (normUrl u) with _ | ⟨pg, f⟩
  · simp [scrape_site, h]
  · simp only [scrape_site, h]
    split <;> rfl

lemma mem_linkStep_fst (acc : Finset String × Finset String) (a : Anchor) (e : String) :
    e ∈ (linkStep acc a).1 ↔
      (pyStartsWith a.href "mailto:" = true ∧ domainOf (mailtoEmail a.href) ∉ JUNK_EMAIL_DOMAINS ∧
        e = pyStrip (mailtoEmail a.href)) ∨ e ∈ acc.1 := by
  unfold linkStep
  split_ifs with h1 h2 h3 h4
  · simp [Finset.mem_insert, h1, h2]
  · simp [h1, h2]
  · simp [h1, h3]
  · simp [h1, h3]
  · simp [h1, h3]

lemma mem_linkStep_snd (acc : Finset String × Finset String) (a : Anchor) (s : String) :
    s ∈ (linkStep acc a).2 ↔
      (¬pyStartsWith a.href "mailto:" = true ∧ pyStartsWith a.href "tel:" = true ∧
        pyIsDigit (telPhone a.href) = true ∧ (telPhone a.href).length = 10 ∧
        s = "+91" ++ telPhone a.href) ∨ s ∈ acc.2 := by
  unfold linkStep
  split_ifs with h1 h2 h3 h4
  · simp [h1]
  · simp [h1]
  · rw [Bool.and_eq_true, beq_iff_eq] at h4
    simp [Finset.mem_insert, h1, h3, h4.1, h4.2]
  · rw [Bool.and_eq_true, beq_iff_eq] at h4
    simp only [not_and, Bool.not_eq_true] at h4
    simp [h1, h3]
    intro hd hl
    exact absurd hl (by simpa [hd] using h4)
  · simp [h1, h3]

lemma mem_foldl_linkStep_fst (links : List Anchor) (acc : Finset String × Finset String)
    (e : String) :
    e ∈ (links.foldl linkStep acc).1 ↔
      e ∈ acc.1 ∨ ∃ a ∈ links, pyStartsWith a.href "mailto:" = true ∧
        domainOf (mailtoEmail a.href) ∉ JUNK_EMAIL_DOMAINS ∧ e = pyStrip (mailtoEmail a.href) := by
  induction links generalizing acc with
  | nil => simp
  | cons a as ih =>
    rw [List.foldl_cons, ih, mem_linkStep_fst, List.exists_mem_cons_iff, or_assoc]
    exact or_left_comm

lemma mem_foldl_linkStep_snd (links : List Anchor) (acc : Finset String × Finset String)
    (s : String) :
    s ∈ (links.foldl linkStep acc).2 ↔
      s ∈ acc.2 ∨ ∃ a ∈ links, ¬pyStartsWith a.href "mailto:" = true ∧
        pyStartsWith a.href "tel:" = true ∧ pyIsDigit (telPhone a.href) = true ∧
        (telPhone a.href).length = 10 ∧ s = "+91" ++ telPhone a.href := by
  induction links generalizing acc with
  | nil => simp
  | cons a as ih =>
    rw [List.foldl_cons, ih, mem_linkStep_snd, List.exists_mem_cons_iff, or_assoc]
    exact or_left_comm

/-! ### Claim theorems -/

/-- Claim C2 (amended): an extracted email candidate — a visible-text
regex match or a `mailto:` target — is discarded exactly when its
domain, the substring after the last `@` of the raw candidate, is
exactly equal to an entry of the junk-domain denylist; matching is
exact, not substring-based, so subdomain variants of a junk domain are
kept; the extractor's email set consists exactly of the
whitespace-trimmed surviving candidates. -/
theorem C2_amended_email_filter (p : Page) (e : String) :
    e ∈ (extract_contacts_from_html (some p)).1 ↔
      (∃ m ∈ EMAIL_findall p.text, domainOf m ∉ JUNK_EMAIL_DOMAINS ∧ e = pyStrip m) ∨
      (∃ a ∈ p.links, pyStartsWith a.href "mailto:" = true ∧
        domainOf (mailtoEmail a.href) ∉ JUNK_EMAIL_DOMAINS ∧ e = pyStrip (mailtoEmail a.href)) := by
  simp only [extract_contacts_from_html, mem_foldl_linkStep_fst, List.mem_toFinset,
    List.mem_map, List.mem_filter, decide_eq_true_eq]
  constructor
  · rintro (⟨m, ⟨hm, hd⟩, rfl⟩ | h)
    · exact Or.inl ⟨m, hm, hd, rfl⟩
    · exact Or.inr h
  · rintro (⟨m, hm, hd, rfl⟩ | h)
    · exact Or.inl ⟨m, ⟨hm, hd⟩, rfl⟩
    · exact Or.inr h

/-- Claim C3 (amended): a `tel:` candidate is accepted only when the
whitespace-trimmed target consists of exactly ten digits, in which case
`+91` is prepended verbatim — non-digit characters are not stripped, so
a `tel:` target containing separators is dropped entirely; a
visible-text candidate is a `PHONE_REGEX` capture (ten digits starting
`6`-`9`, optionally preceded by `+91` and one dash/space) with `+91`
prepended; nothing else is ever emitted, so a rejected candidate never
appears in truncated form. -/
theorem C3_amended_phone_rules (p : Page) (s : String) :
    s ∈ (extract_contacts_from_html (some p)).2 ↔
      (∃ a ∈ p.links, ¬pyStartsWith a.href "mailto:" = true ∧
        pyStartsWith a.href "tel:" = true ∧ pyIsDigit (telPhone a.href) = true ∧
        (telPhone a.href).length = 10 ∧ s = "+91" ++ telPhone a.href) ∨
      (∃ m ∈ PHONE_findall p.text, s = "+91" ++ pyStrip m) := by
  simp only [extract_contacts_from_html, Finset.mem_union, mem_foldl_linkStep_snd,
    Finset.not_mem_empty, false_or, List.mem_toFinset, List.mem_map]
  constructor
  · rintro (h | ⟨m, hm, rfl⟩)
    · exact Or.inl h
    · exact Or.inr ⟨m, hm, rfl⟩
  · rintro (h | ⟨m, hm, rfl⟩)
    · exact Or.inl h
    · exact Or.inr ⟨m, hm, rfl⟩

/-- Claim C7: for every URL, the Result returned by the Site Scraper is
either a success (error null, emails/phones possibly empty) or a failure
with both emails and phones empty — never an error together with
non-empty contacts. -/
theorem C7_result_exclusive (env : Env) (url0 : String) :
    (scrape_site env url0).error = none ∨
      ((scrape_site env url0).error ≠ none ∧ (scrape_site env url0).emails = ∅ ∧
        (scrape_site env url0).phones = ∅) := by
  rcases h : fetch_with_fallback env (normUrl url0) with _ | ⟨pg, f⟩
  · right
    simp [scrape_site, h]
  · left
    simp only [scrape_site, h]
    split <;> rfl

/-- Claim C5 (amended): when the Playwright fetch of the (scheme-
normalized) URL fails, the scraper retries the same URL once via the
aiohttp fetcher; when both fail the site is declared Unreachable.  No
alternate-scheme (http ⇄ https) retry occurs: the environment is
arbitrary outside the two stated fetches, so the outcome is independent
of the fetchability of the alternate-scheme URL. -/
theorem C5_amended_no_scheme_retry (env : Env) (url0 : String)
    (h1 : env.fetchPW (normUrl url0) = none) (h2 : env.fetchA (normUrl url0) = none) :
    scrape_site env url0 = ⟨url0, ∅, ∅, none, some "Site not reachable"⟩ := by
  have h : fetch_with_fallback env (normUrl url0) = none := by
    simp only [fetch_with_fallback, h1, h2]
  simp [scrape_site, h]

theorem C5_witness :
    envFail.fetchPW (normUrl "example.com") = none ∧
      envFail.fetchA (normUrl "example.com") = none ∧
      scrape_site envFail "example.com" =
        ⟨"example.com", ∅, ∅, none, some "Site not reachable"⟩ :=
  ⟨rfl, rfl, C5_amended_no_scheme_retry envFail "example.com" rfl rfl⟩

/-- Claim C8: when the homepage fetch succeeds, the located contact page
differs from the homepage's final URL, and both fetch strategies fail on
that contact page, the scraper still returns a success Result whose
emails and phones are exactly those extracted from the homepage alone
(the failed contact fetch contributes empty sets). -/
theorem C8_contact_fail_homepage_only (env : Env) (url0 : String) (p : Page) (f : String)
    (h1 : fetch_with_fallback env (normUrl url0) = some (p, f))
    (h2 : find_contact_page env.urljoin (some p) f ≠ f)
    (h3 : fetch_with_fallback env (find_contact_page env.urljoin (some p) f) = none) :
    scrape_site env url0 =
      ⟨url0, (extract_contacts_from_html (some p)).1, (extract_contacts_from_html (some p)).2,
        some (find_contact_page env.urljoin (some p) f), none⟩ := by
  simp only [scrape_site, h1, h3]
  rw [if_pos h2]
  simp [extract_contacts_from_html]

/-- Claim C9: when the homepage fetch succeeds and no anchor of the
homepage matches any contact-related keyword (in its lowercased href or
visible text), the locator returns the base URL unchanged, the homepage
is treated as its own contact page, and the Result's emails/phones
derive solely from homepage content. -/
theorem C9_no_contact_link (env : Env) (url0 : String) (p : Page) (f : String)
    (h1 : fetch_with_fallback env (normUrl url0) = some (p, f))
    (hk : ∀ a ∈ p.links, ∀ kw ∈ contactKeywords,
      strContains (pyLower a.href) kw = false ∧ strContains (pyLower a.text) kw = false) :
    find_contact_page env.urljoin (some p) f = f ∧
      scrape_site env url0 =
        ⟨url0, (extract_contacts_from_html (some p)).1,
          (extract_contacts_from_html (some p)).2, some f, none⟩ := by
  have hfind : p.links.find? (fun a => strContains (pyLower a.href) "contact") = none := by
    rw [List.find?_eq_none]
    intro a ha
    have hc := (hk a ha "contact" (by simp [contactKeywords])).1
    simp [hc]
  have hcp : find_contact_page env.urljoin (some p) f = f := by
    simp [find_contact_page, hfind]
  refine ⟨hcp, ?_⟩
  simp only [scrape_site, h1, hcp]
  rw [if_neg (fun hh => hh rfl)]

theorem C8_witness :
    fetch_with_fallback envW8 (normUrl "h.com") = some (pageW8, "http://h.com") ∧
      find_contact_page envW8.urljoin (some pageW8) "http://h.com" ≠ "http://h.com" ∧
      fetch_with_fallback envW8
        (find_contact_page envW8.urljoin (some pageW8) "http://h.com") = none ∧
      scrape_site envW8 "h.com" =
        ⟨"h.com", (extract_contacts_from_html (some pageW8)).1,
          (extract_contacts_from_html (some pageW8)).2,
          some (find_contact_page envW8.urljoin (some pageW8) "http://h.com"), none⟩ :=
  ⟨by decide, by decide, by decide,
    C8_contact_fail_homepage_only envW8 "h.com" pageW8 "http://h.com"
      (by decide) (by decide) (by decide)⟩

theorem C9_witness :
    fetch_with_fallback envW9 (normUrl "n.com") = some (pageW9, "http://n.com") ∧
      find_contact_page envW9.urljoin (some pageW9) "http://n.com" = "http://n.com" ∧
      scrape_site envW9 "n.com" =
        ⟨"n.com", (extract_contacts_from_html (some pageW9)).1,
          (extract_contacts_from_html (some pageW9)).2, some "http://n.com", none⟩ :=
  ⟨by decide,
    (C9_no_contact_link envW9 "n.com" pageW9 "http://n.com" (by decide) (by decide)).1,
    (C9_no_contact_link envW9 "n.com" pageW9 "http://n.com" (by decide) (by decide)).2⟩

/-- Claim C4 (amended): the locator scans anchors in document order and
returns the base-joined href of the first anchor whose lowercased href
contains the substring `"contact"`; the anchor's visible text is never
examined and no other keyword triggers a match; there is no scoring or
ranking among candidates. -/
theorem C4_amended_first_contact_href (uj : String → String → String) (t : String)
    (pre post : List Anchor) (a : Anchor) (base : String)
    (hpre : ∀ b ∈ pre, strContains (pyLower b.href) "contact" = false)
    (ha : strContains (pyLower a.href) "contact" = true) :
    find_contact_page uj (some ⟨t, pre ++ a :: post⟩) base = uj base a.href := by
  have key : ∀ (l : List Anchor), (∀ b ∈ l, strContains (pyLower b.href) "contact" = false) →
      (l ++ a :: post).find? (fun b => strContains (pyLower b.href) "contact") = some a := by
    intro l
    induction l with
    | nil =>
      intro _
      exact List.find?_cons_of_pos _ ha
    | cons b bs ih =>
      intro hp
      rw [List.cons_append, List.find?_cons_of_neg, ih]
      · exact fun x hx => hp x (List.mem_cons_of_mem _ hx)
      · simp [hp b (List.mem_cons_self _ _)]
  simp only [find_contact_page, key pre hpre]

theorem C4_witness :
    (∀ b ∈ [Anchor.mk "/about" "About"], strContains (pyLower b.href) "contact" = false) ∧
      strContains (pyLower "/contact-us") "contact" = true ∧
      find_contact_page (fun b h => b ++ h)
          (some ⟨"", [⟨"/about", "About"⟩, ⟨"/contact-us", "Contact"⟩, ⟨"/contact", "x"⟩]⟩)
          "https://e.com" = "https://e.com" ++ "/contact-us" :=
  ⟨by decide, by decide,
    C4_amended_first_contact_href (fun b h => b ++ h) "" [⟨"/about", "About"⟩]
      [⟨"/contact", "x"⟩] ⟨"/contact-us", "Contact"⟩ "https://e.com" (by decide) (by decide)⟩

/-- Claim C1 (amended): the Report produced by the bulk orchestrator
contains exactly one row per input URL whose whitespace-stripped form is
non-empty — blank or whitespace-only entries are silently dropped by the
task-building filter — in input order, each row keyed by the stripped
URL, including URLs whose extraction fails. -/
theorem C1_amended_rows (env : Env) (urls : List String) :
    (extract_contacts_bulk env urls).map ScrapeResult.url =
      (urls.filter (fun u => pyStrip u != "")).map (fun u => pyStrip u) := by
  simp only [extract_contacts_bulk, List.map_map, Function.comp_def, scrape_site_url]

/-- Claim C6 (amended): the orchestrator performs a single pass — each
URL with a truthy stripped form is dispatched to the Site Scraper
exactly once, never more often than it occurs in the input (so a URL
whose Result carries an error is never re-dispatched), and the Report
is exactly the first-pass Results of the dispatched URLs in order; no
retry pass exists, so first-pass failures are final. -/
theorem C6_amended_single_pass (env : Env) (urls : List String) (u : String) :
    (bulk_dispatches urls).count u ≤ (urls.map (fun v => pyStrip v)).count u ∧
      extract_contacts_bulk env urls = (bulk_dispatches urls).map (scrape_site env) := by
  constructor
  · exact ((List.filter_sublist urls).map (fun v => pyStrip v)).count_le u
  · simp only [extract_contacts_bulk, bulk_dispatches, List.map_map, Function.comp_def]

/-- Counterexample to claim C1 as stated: an input list consisting of a
single whitespace-only URL produces a Report with zero rows, not one row
per input URL. -/
theorem C1_counterexample :
    (extract_contacts_bulk envFail [" "]).length = 0 ∧ ([" "] : List String).length = 1 := by
  decide

/-- Counterexample to claim C2 as stated: the text candidate
`a@x.sentry.io` has domain `x.sentry.io`, which contains the junk-domain
entry `sentry.io` as a substring (a subdomain variant), yet the
extractor keeps it — filtering is exact equality, not substring
containment. -/
theorem C2_counterexample :
    "a@x.sentry.io" ∈ (extract_contacts_from_html (some ⟨"a@x.sentry.io", []⟩)).1 ∧
      domainOf "a@x.sentry.io" = "x.sentry.io" ∧
      "x.sentry.io" ∉ JUNK_EMAIL_DOMAINS ∧
      strContains "x.sentry.io" "sentry.io" = true ∧
      "sentry.io" ∈ JUNK_EMAIL_DOMAINS := by
  decide

/-- Counterexample to claim C3 as stated: the `tel:` candidate
`987-654-3210` has exactly ten digits after stripping non-digits, so the
claimed normalization would emit `+919876543210`; the code instead
requires the raw trimmed target to be all digits and drops it, emitting
no phone at all. -/
theorem C3_counterexample :
    (("987-654-3210").data.filter Char.isDigit).length = 10 ∧
      (extract_contacts_from_html (some ⟨"", [⟨"tel:987-654-3210", ""⟩]⟩)).2 = ∅ ∧
      "+919876543210" ∉ (extract_contacts_from_html (some ⟨"", [⟨"tel:987-654-3210", ""⟩]⟩)).2 := by
  decide

/-- Counterexample to claim C4 as stated: an anchor whose href and
visible text match the keyword `support` is ignored by the locator,
which returns the base URL instead of the anchor's resolved target —
only the substring `contact` in the href triggers a match. -/
theorem C4_counterexample :
    find_contact_page (fun b h => b ++ h)
        (some ⟨"", [⟨"/support.html", "Support"⟩]⟩) "https://e.com" = "https://e.com" ∧
      strContains (pyLower "/support.html") "support" = true ∧
      "support" ∈ contactKeywords ∧
      "https://e.com" ≠ "https://e.com" ++ "/support.html" := by
  decide

/-- Counterexample to claim C5 as stated: in an environment where the
alternate-scheme URL `https://example.com` is fetchable, the scraper
still declares `example.com` (normalized to `http://example.com`)
unreachable — no alternate-scheme retry is ever attempted. -/
theorem C5_counterexample :
    (scrape_site envHttps "example.com").error = some "Site not reachable" ∧
      envHttps.fetchA "https://example.com" = some (⟨"", []⟩, "https://example.com") := by
  decide

/-- Counterexample to claim C6 as stated: a URL whose first-pass Result
carries an error is dispatched exactly once, not re-dispatched a second
time — no retry pass exists. -/
theorem C6_counterexample :
    ¬((bulk_dispatches ["x.com"]).count "x.com" = 2) ∧
      (extract_contacts_bulk envFail ["x.com"]).map ScrapeResult.error =
        [some "Site not reachable"] ∧
      (bulk_dispatches ["x.com"]).count "x.com" = 1 := by
  decide

end ContactScraper
